import Mathlib

/-!
# LangoLink real-time chat backend: verification of the spec against the code

Shallow embedding of the server core of the LangoLink repository:
* the `storage` layer (`server/storage.ts`): users, rooms, participants,
  messages over a relational store, modelled as lists of rows;
* the translation layer (`server/translation.ts`): `translateMessage`,
  parametrised by the outcome of the single external model call;
* the socket layer (`server/socket.ts`): the `authenticate`, `join_room` and
  `send_message` handlers, modelled as pure functions from server state,
  per-connection state and the inbound payload to the updated states plus an
  ordered trace of effects (store writes and event emissions).
-/

/-- A row of the `users` table (`shared/schema.ts`), restricted to the fields
the server core reads. -/
structure User where
  id : Nat
  displayName : String
  profilePhoto : Option String
  deriving Repr, DecidableEq

/-- A row of the `rooms` table, restricted to the fields the server core
reads. -/
structure Room where
  id : Nat
  roomCode : String
  name : String
  createdBy : Nat
  languages : List String
  isActive : Bool
  deriving Repr, DecidableEq

/-- A row of the `room_participants` table. -/
structure RoomParticipant where
  id : Nat
  roomId : Nat
  userId : Nat
  language : String
  deriving Repr, DecidableEq

/-- A row of the `messages` table.  `translatedContent` is the JSON object
target-language → translated text, modelled as an association list. -/
structure Message where
  id : Nat
  roomId : Nat
  senderId : Nat
  content : String
  messageType : String
  originalLanguage : String
  translatedContent : List (String × String)
  deriving Repr, DecidableEq

/-- The relational store backing the `storage` object: one list of rows per
table, plus the serial-id counters. -/
structure DB where
  users : List User
  rooms : List Room
  roomParticipants : List RoomParticipant
  messages : List Message
  nextRoomId : Nat
  nextParticipantId : Nat
  nextMessageId : Nat
  deriving Repr, DecidableEq

namespace storage

/-- `storage.getUserById`: `select from users where id = id`, first row. -/
def getUserById (db : DB) (id : Nat) : Option User :=
  (db.users.filter (fun u => u.id = id)).head?

/-- `storage.getRoomById`: `select from rooms where id = id`, first row. -/
def getRoomById (db : DB) (id : Nat) : Option Room :=
  (db.rooms.filter (fun r => r.id = id)).head?

/-- `storage.isUserInRoom`: whether a `room_participants` row exists for the
(roomId, userId) pair. -/
def isUserInRoom (db : DB) (roomId : Nat) (userId : Nat) : Bool :=
  (db.roomParticipants.filter
    (fun p => p.roomId = roomId && p.userId = userId)).length > 0

/-- `storage.getRoomParticipants`: the participant rows of the room whose
referenced user still exists (rows whose user lookup fails are dropped). -/
def getRoomParticipants (db : DB) (roomId : Nat) : List RoomParticipant :=
  (db.roomParticipants.filter (fun p => p.roomId = roomId)).filter
    (fun p => (getUserById db p.userId).isSome)

/-- `storage.createMessage`: insert one `messages` row and return it. -/
def createMessage (db : DB) (roomId senderId : Nat) (content : String)
    (messageType : String) (originalLanguage : String)
    (translatedContent : List (String × String)) : Message × DB :=
  let m : Message :=
    { id := db.nextMessageId, roomId := roomId, senderId := senderId,
      content := content, messageType := messageType,
      originalLanguage := originalLanguage,
      translatedContent := translatedContent }
  (m, { db with messages := db.messages ++ [m],
                nextMessageId := db.nextMessageId + 1 })

/-- The alphabet of `generateRoomCode`:
`"ABCDEFGHJKLMNPQRSTUVWXYZ23456789"`. -/
def roomCodeChars : List Char := "ABCDEFGHJKLMNPQRSTUVWXYZ23456789".data

/-- `generateRoomCode`: a six-character string, each character chosen as
`chars.charAt(Math.floor(Math.random() * chars.length))`; `rand i` supplies
the `i`-th random draw (reduced mod the alphabet length, as the source's
floor-of-scaled-random always lands below it). -/
def generateRoomCode (rand : Nat → Nat) : String :=
  String.mk ((List.range 6).map fun i =>
    roomCodeChars.getD (rand i % roomCodeChars.length) 'A')

/-- The `while (attempts < 10)` retry loop of `storage.createRoom`, recursing
on the number of loop iterations still allowed (`remaining = 10 - attempts`):
`collides` is the Store probe `select from rooms where roomCode = code`, and
`gen k` is the code produced by the `generateRoomCode` call after `k`
regenerations.  Returns the code the loop settles on. -/
def pickRoomCodeAux (collides : String → Bool) (gen : Nat → String) :
    Nat → Nat → String → String
  | 0, _, code => code
  | remaining + 1, attempts, code =>
    if collides code then
      pickRoomCodeAux collides gen remaining (attempts + 1) (gen (attempts + 1))
    else code

/-- The retry loop entered with `attempts = 0` on the first generated code. -/
def pickRoomCode (collides : String → Bool) (gen : Nat → String) : String :=
  pickRoomCodeAux collides gen 10 0 (gen 0)

/-- `storage.createRoom`: pick a room code via the collision-probe loop,
insert the `rooms` row, then insert the creator's `room_participants` row with
language `languages[0] || "en"` (first element; `"en"` when the list is empty
or its first element is the empty string, both falsy in the source).
`rands k` supplies the random draws of the `(k+1)`-st `generateRoomCode`
call. -/
def createRoom (db : DB) (name : String) (createdBy : Nat)
    (languages : List String) (rands : Nat → Nat → Nat) : Room × DB :=
  let gen : Nat → String := fun k => generateRoomCode (rands k)
  let collides : String → Bool := fun c =>
    (db.rooms.filter (fun r => r.roomCode = c)).length > 0
  let code := pickRoomCode collides gen
  let room : Room :=
    { id := db.nextRoomId, roomCode := code, name := name,
      createdBy := createdBy, languages := languages, isActive := true }
  let creatorLang : String :=
    match languages with
    | [] => "en"
    | l :: _ => if l = "" then "en" else l
  let p : RoomParticipant :=
    { id := db.nextParticipantId, roomId := room.id, userId := createdBy,
      language := creatorLang }
  (room, { db with rooms := db.rooms ++ [room],
                   roomParticipants := db.roomParticipants ++ [p],
                   nextRoomId := db.nextRoomId + 1,
                   nextParticipantId := db.nextParticipantId + 1 })

/-- `storage.joinRoom`: return the existing `room_participants` row for the
pair if there is one, otherwise insert a fresh row with the given language. -/
def joinRoom (db : DB) (roomId userId : Nat) (language : String) :
    RoomParticipant × DB :=
  let existing := db.roomParticipants.filter
    (fun p => p.roomId = roomId && p.userId = userId)
  match existing.head? with
  | some p => (p, db)
  | none =>
      let p : RoomParticipant :=
        { id := db.nextParticipantId, roomId := roomId, userId := userId,
          language := language }
      (p, { db with roomParticipants := db.roomParticipants ++ [p],
                    nextParticipantId := db.nextParticipantId + 1 })

end storage

/-- The JSON object parsed out of the model's reply inside `translateMessage`;
each field may be absent. -/
structure RawTranslation where
  detectedLanguage : Option String
  translations : Option (List (String × String))
  confidence : Option ℚ
  deriving Repr, DecidableEq

/-- Outcome of the single external model call inside `translateMessage`: either
the call throws, or its reply contains no JSON object, or `JSON.parse` throws
(all `failure`, handled by the same `catch`), or a parsed object is
obtained. -/
inductive TranslatorOutcome where
  | failure
  | success (raw : RawTranslation)
  deriving Repr, DecidableEq

/-- The `TranslationResult` interface of `server/translation.ts`. -/
structure TranslationResult where
  detectedLanguage : String
  translations : List (String × String)
  confidence : ℚ
  deriving Repr, DecidableEq

/-- `translateMessage` (`server/translation.ts`): aside from the external
call, whose outcome is the `outcome` argument, a pure function.  On an empty
target list it answers immediately; on failure it falls back to mapping every
target language to the original text with confidence 0; on success it applies
the source's `|| "en"`, `|| {}` and `|| 0.8` defaults to the parsed fields. -/
def translateMessage (text : String) (targetLanguages : List String)
    (outcome : TranslatorOutcome) : TranslationResult :=
  if targetLanguages.length = 0 then
    { detectedLanguage := "en", translations := [], confidence := 1 }
  else
    match outcome with
    | .failure =>
        { detectedLanguage := "unknown",
          translations := targetLanguages.map (fun lang => (lang, text)),
          confidence := 0 }
    | .success raw =>
        { detectedLanguage :=
            match raw.detectedLanguage with
            | none => "en"
            | some s => if s = "" then "en" else s,
          translations := raw.translations.getD [],
          confidence :=
            match raw.confidence with
            | none => (8 : ℚ) / 10
            | some c => if c = 0 then (8 : ℚ) / 10 else c }

/-- The denormalized sender summary embedded in a `new_message` payload. -/
structure SenderSummary where
  id : Nat
  displayName : String
  profilePhoto : Option String
  deriving Repr, DecidableEq

/-- Outbound socket events of `server/socket.ts`. -/
inductive OutEvent where
  | error (message : String)
  | authenticated (userId : Nat)
  | user_joined (userId : Nat) (displayName : Option String) (roomId : Nat)
  | user_left (userId : Nat) (roomId : Nat)
  | online_users (roomId : Nat) (users : List Nat)
  | new_message (message : Message) (sender : SenderSummary)
      (translationResult : TranslationResult)
  | user_typing (userId : Nat) (roomId : Nat) (isTyping : Bool)
  deriving Repr, DecidableEq

/-- One observable step of a handler, in execution order: the Store write of a
message row, the external translator call, or an emission (`socket.emit`,
`socket.to(roomKey).emit` — every live member of the group except the acting
socket — or `io.to(roomKey).emit` — every live member of the group). -/
inductive Effect where
  | storeCreateMessage (m : Message)
  | callTranslator (text : String) (targetLanguages : List String)
  | emitSelf (ev : OutEvent)
  | emitRoomOthers (key : String) (ev : OutEvent)
  | emitRoomAll (key : String) (ev : OutEvent)
  deriving Repr, DecidableEq

/-- Lookup in a map-of-sets modelled as an association list (`Map.get`,
absent key giving the empty set). -/
def lookupList {α β : Type} [DecidableEq α] (m : List (α × List β)) (k : α) :
    List β :=
  match m.find? (fun e => e.1 = k) with
  | some e => e.2
  | none => []

/-- `if (!m.has(k)) m.set(k, new Set()); m.get(k)!.add(v)` on a map-of-sets
modelled as an association list of duplicate-free lists. -/
def addToSet {α β : Type} [DecidableEq α] [DecidableEq β]
    (m : List (α × List β)) (k : α) (v : β) : List (α × List β) :=
  if m.any (fun e => e.1 = k) then
    m.map (fun e =>
      if e.1 = k then (e.1, if v ∈ e.2 then e.2 else e.2 ++ [v]) else e)
  else m ++ [(k, [v])]

/-- The module-level mutable state of `server/socket.ts`:
`onlineUsers : Map<userId, Set<socketId>>`,
`userRooms : Map<socketId, Set<roomId>>`, plus the socket.io room registry
(`roomKey` → the set of sockets that joined it via `socket.join`). -/
structure ServerState where
  onlineUsers : List (Nat × List String)
  userRooms : List (String × List Nat)
  liveGroups : List (String × List String)
  deriving Repr, DecidableEq

/-- Per-connection handler state: the socket id and the `currentUserId`
closure variable (`number | null`). -/
structure ConnState where
  socketId : String
  currentUserId : Option Nat
  deriving Repr, DecidableEq

/-- JS truthiness of the guard `if (!currentUserId)`: it fires on `null` and
on the user id `0`. -/
def falsyUser : Option Nat → Bool
  | none => true
  | some 0 => true
  | some _ => false

/-- The socket.io room key `` `room:${roomId}` ``. -/
def roomKey (roomId : Nat) : String := "room:" ++ toString roomId

/-- `[...new Set(l)]`: deduplicate keeping the first occurrence of each
element, preserving insertion order; `seen` is the set built so far. -/
def dedupKeepFirstAux (seen : List String) : List String → List String
  | [] => []
  | a :: l =>
    if a ∈ seen then dedupKeepFirstAux seen l
    else a :: dedupKeepFirstAux (seen ++ [a]) l

/-- `[...new Set(l)]` with an initially empty set. -/
def dedupKeepFirst (l : List String) : List String := dedupKeepFirstAux [] l

/-- JS `String.prototype.trim`, embedded over the character list: strip
whitespace from both ends of the string. -/
def jsTrim (s : String) : String :=
  String.mk (((s.data.dropWhile Char.isWhitespace).reverse.dropWhile
    Char.isWhitespace).reverse)

/-- The sender's effective room language in `send_message`:
`senderParticipant?.language || "en"` where `senderParticipant` is the first
participant row with the sender's user id. -/
def senderLangOf (participants : List RoomParticipant) (u : Nat) : String :=
  match participants.find? (fun p => p.userId = u) with
  | some p => if p.language = "" then "en" else p.language
  | none => "en"

/-- The target languages of `send_message`:
`[...new Set(participants.map(p => p.language).filter(l => l !== senderLang))]`. -/
def targetLanguagesOf (participants : List RoomParticipant)
    (senderLang : String) : List String :=
  dedupKeepFirst
    ((participants.map (fun p => p.language)).filter
      (fun lang => lang ≠ senderLang))

/-- Whether an effect is the external translator call. -/
def isTranslatorCall : Effect → Bool
  | .callTranslator _ _ => true
  | _ => false

/-- Whether an effect emits an `error` event (to the acting socket, to the
other group members, or to the whole group). -/
def isErrorEffect : Effect → Bool
  | .emitSelf (.error _) => true
  | .emitRoomOthers _ (.error _) => true
  | .emitRoomAll _ (.error _) => true
  | _ => false

/-- The translation results carried by the `new_message` broadcasts of a
trace, in order. -/
def broadcastTranslationResults : List Effect → List TranslationResult
  | [] => []
  | .emitRoomAll _ (.new_message _ _ tr) :: l =>
      tr :: broadcastTranslationResults l
  | _ :: l => broadcastTranslationResults l

namespace socket

/-- `getOnlineUsersInRoom`: the room's participants (Store query) filtered by
presence in the `onlineUsers` map, projected to user ids. -/
def getOnlineUsersInRoom (db : DB) (st : ServerState) (roomId : Nat) :
    List Nat :=
  ((storage.getRoomParticipants db roomId).filter
    (fun p => st.onlineUsers.any (fun e => e.1 = p.userId))).map
    (fun p => p.userId)

/-- The `authenticate` handler: assigns `currentUserId`, looks the user up via
Store, emits `error` when absent, otherwise marks the socket online and
acknowledges to the caller only. -/
def authenticate (db : DB) (st : ServerState) (conn : ConnState)
    (userId : Nat) : ServerState × ConnState × List Effect :=
  let conn' := { conn with currentUserId := some userId }
  match storage.getUserById db userId with
  | none => (st, conn', [.emitSelf (.error "User not found")])
  | some _ =>
      ({ st with onlineUsers := addToSet st.onlineUsers userId conn.socketId },
       conn',
       [.emitSelf (.authenticated userId)])

/-- The `join_room` handler: authentication guard, Store membership check,
`socket.join`, reverse-index update, `user_joined` to the other members, then
`online_users` to the whole group. -/
def join_room (db : DB) (st : ServerState) (conn : ConnState)
    (roomId : Nat) : ServerState × ConnState × List Effect :=
  if falsyUser conn.currentUserId then
    (st, conn, [.emitSelf (.error "Not authenticated")])
  else
    let u := conn.currentUserId.getD 0
    if ¬ storage.isUserInRoom db roomId u then
      (st, conn, [.emitSelf (.error "Not a member of this room")])
    else
      let key := roomKey roomId
      let st' : ServerState :=
        { st with liveGroups := addToSet st.liveGroups key conn.socketId,
                  userRooms := addToSet st.userRooms conn.socketId roomId }
      let user := storage.getUserById db u
      let onlineInRoom := getOnlineUsersInRoom db st' roomId
      (st', conn,
       [.emitRoomOthers key (.user_joined u (user.map User.displayName) roomId),
        .emitRoomAll key (.online_users roomId onlineInRoom)])

/-- The `send_message` handler: authentication and membership guards, silent
return when the room row is absent, sender-language and target-language
computation, conditional translator call, message persistence, then the
`new_message` broadcast to the whole group.  `outcome` is the outcome of the
external model call inside `translateMessage`, consulted only if the handler
reaches that call. -/
def send_message (db : DB) (st : ServerState) (conn : ConnState)
    (roomId : Nat) (content : String) (messageType : Option String)
    (outcome : TranslatorOutcome) :
    DB × ServerState × ConnState × List Effect :=
  if falsyUser conn.currentUserId then
    (db, st, conn, [.emitSelf (.error "Not authenticated")])
  else
    let u := conn.currentUserId.getD 0
    if ¬ storage.isUserInRoom db roomId u then
      (db, st, conn, [.emitSelf (.error "Not a member of this room")])
    else
      match storage.getRoomById db roomId with
      | none => (db, st, conn, [])
      | some _ =>
          let participants := storage.getRoomParticipants db roomId
          let senderLang := senderLangOf participants u
          let targetLanguages := targetLanguagesOf participants senderLang
          let doTranslate :=
            targetLanguages.length > 0 && (jsTrim content).length > 0
          let translationResult :=
            if doTranslate then translateMessage content targetLanguages outcome
            else { detectedLanguage := senderLang, translations := [],
                   confidence := 1 }
          let effectiveType :=
            match messageType with
            | none => "text"
            | some s => if s = "" then "text" else s
          let md := storage.createMessage db roomId u content effectiveType
            translationResult.detectedLanguage translationResult.translations
          let sender : SenderSummary :=
            match storage.getUserById md.2 u with
            | some s =>
                { id := s.id, displayName := s.displayName,
                  profilePhoto := s.profilePhoto }
            | none => { id := u, displayName := "Unknown", profilePhoto := none }
          let pre : List Effect :=
            if doTranslate then [.callTranslator content targetLanguages]
            else []
          (md.2, st, conn,
           pre ++ [.storeCreateMessage md.1,
                   .emitRoomAll (roomKey roomId)
                     (.new_message md.1 sender translationResult)])

end socket

/-! ## Concrete fixtures -/

/-- An empty store. -/
def dbEmpty : DB :=
  { users := [], rooms := [], roomParticipants := [], messages := [],
    nextRoomId := 1, nextParticipantId := 1, nextMessageId := 1 }

/-- A store with two users and one room; user 1 participates with language
"en", user 2 with language "es". -/
def dbA : DB :=
  { users := [{ id := 1, displayName := "Alice", profilePhoto := none },
              { id := 2, displayName := "Bob", profilePhoto := none }],
    rooms := [{ id := 1, roomCode := "ABCDEF", name := "Main",
                createdBy := 1, languages := ["en", "es"], isActive := true }],
    roomParticipants :=
      [{ id := 1, roomId := 1, userId := 1, language := "en" },
       { id := 2, roomId := 1, userId := 2, language := "es" }],
    messages := [], nextRoomId := 2, nextParticipantId := 3,
    nextMessageId := 1 }

/-- A store whose single room already carries the code `"AAAAAA"`. -/
def dbColl : DB :=
  { users := [], rooms := [{ id := 1, roomCode := "AAAAAA", name := "Old",
                             createdBy := 1, languages := ["en"],
                             isActive := true }],
    roomParticipants := [], messages := [], nextRoomId := 2,
    nextParticipantId := 1, nextMessageId := 1 }

/-- The fresh server state: no one online, no live groups. -/
def st0 : ServerState := { onlineUsers := [], userRooms := [], liveGroups := [] }

/-! ## The Participant-table invariant (claim C8) -/

/-- At most one `room_participants` row per (room, user) pair. -/
def atMostOneParticipantPerPair (db : DB) : Prop :=
  ∀ p ∈ db.roomParticipants, ∀ q ∈ db.roomParticipants,
    p.roomId = q.roomId → p.userId = q.userId → p = q

instance (db : DB) : Decidable (atMostOneParticipantPerPair db) := by
  unfold atMostOneParticipantPerPair; infer_instance

/-- C8: `storage.joinRoom` is idempotent: a second sequential call for the
same (room, user) pair, with any language argument, returns the row the first
call produced and leaves the store (in particular the participant table)
unchanged, and the at-most-one-row-per-pair invariant is preserved. -/
theorem joinRoom_idempotent (db : DB) (roomId userId : Nat) (l l' : String)
    (hinv : atMostOneParticipantPerPair db) :
    (storage.joinRoom (storage.joinRoom db roomId userId l).2 roomId userId l').1
      = (storage.joinRoom db roomId userId l).1 ∧
    (storage.joinRoom (storage.joinRoom db roomId userId l).2 roomId userId l').2
      = (storage.joinRoom db roomId userId l).2 ∧
    atMostOneParticipantPerPair (storage.joinRoom db roomId userId l).2 := by
  cases hE : (db.roomParticipants.filter
      (fun p => p.roomId = roomId && p.userId = userId)).head? with
  | some p =>
      have h1 : storage.joinRoom db roomId userId l = (p, db) := by
        unfold storage.joinRoom; simp only [hE]
      rw [h1]
      have h2 : storage.joinRoom db roomId userId l' = (p, db) := by
        unfold storage.joinRoom; simp only [hE]
      simp [h2, hinv]
  | none =>
      have hnil : db.roomParticipants.filter
          (fun p => p.roomId = roomId && p.userId = userId) = [] :=
        List.head?_eq_none_iff.mp hE
      set p0 : RoomParticipant :=
        { id := db.nextParticipantId, roomId := roomId, userId := userId,
          language := l } with hp0
      set db1 : DB :=
        { db with roomParticipants := db.roomParticipants ++ [p0],
                  nextParticipantId := db.nextParticipantId + 1 } with hdb1
      have h1 : storage.joinRoom db roomId userId l = (p0, db1) := by
        unfold storage.joinRoom; simp only [hE, hp0, hdb1]
      rw [h1]
      have hfil1 : db1.roomParticipants.filter
          (fun p => p.roomId = roomId && p.userId = userId) = [p0] := by
        rw [hdb1]
        simp only [List.filter_append, hnil, List.nil_append]
        simp [hp0]
      have h2 : storage.joinRoom db1 roomId userId l' = (p0, db1) := by
        unfold storage.joinRoom; simp only [hfil1, List.head?_cons]
      refine ⟨by rw [h2], by rw [h2], ?_⟩
      intro a ha b hb hroom huser
      rw [hdb1] at ha hb
      simp only [List.mem_append, List.mem_singleton] at ha hb
      rcases ha with ha | ha <;> rcases hb with hb | hb
      · exact hinv a ha b hb hroom huser
      · exfalso
        have : a ∈ db.roomParticipants.filter
            (fun p => p.roomId = roomId && p.userId = userId) := by
          rw [List.mem_filter]
          refine ⟨ha, ?_⟩
          subst hb
          simp only [hp0] at hroom huser
          simp [hroom, huser]
        rw [hnil] at this
        exact absurd this (List.not_mem_nil a)
      · exfalso
        have : b ∈ db.roomParticipants.filter
            (fun p => p.roomId = roomId && p.userId = userId) := by
          rw [List.mem_filter]
          refine ⟨hb, ?_⟩
          subst ha
          simp [hp0] at hroom huser
          simp [← hroom, ← huser]
        rw [hnil] at this
        exact absurd this (List.not_mem_nil b)
      · rw [ha, hb]

/-- Witness for C8 at a concrete store. -/
theorem joinRoom_idempotent_witness :
    (storage.joinRoom (storage.joinRoom dbA 1 5 "en").2 1 5 "fr").1
      = (storage.joinRoom dbA 1 5 "en").1 ∧
    (storage.joinRoom (storage.joinRoom dbA 1 5 "en").2 1 5 "fr").2
      = (storage.joinRoom dbA 1 5 "en").2 ∧
    atMostOneParticipantPerPair (storage.joinRoom dbA 1 5 "en").2 :=
  joinRoom_idempotent dbA 1 5 "en" "fr" (by decide)

/-! ## Room creation (claims C9 and C10) -/

/-- C10 fails as stated: creating a room with `languages = [""]` inserts the
creator with per-room language `"en"`, not the first element `""` of
`languages`, because `languages[0] || "en"` treats the empty string as
falsy. -/
theorem createRoom_creator_language_cex :
    (((storage.createRoom dbEmpty "Room" 7 [""] (fun _ _ => 0)).2.roomParticipants.filter
        (fun p => p.userId = 7)).map (fun p => p.language) = ["en"]) ∧
    ([""] : List String).head? = some "" ∧ ("" : String) ≠ "en" := by decide

/-- C10 (amended): every `createRoom(name, createdBy, languages)` immediately
inserts the creating user as a Participant of the new room — so the creator is
a member without the REST join flow — with per-room language the first element
of `languages` when that element is non-empty, and `"en"` when `languages` is
empty or its first element is the empty string. -/
theorem createRoom_inserts_creator (db : DB) (name : String) (createdBy : Nat)
    (languages : List String) (rands : Nat → Nat → Nat) :
    storage.isUserInRoom (storage.createRoom db name createdBy languages rands).2
      (storage.createRoom db name createdBy languages rands).1.id createdBy = true ∧
    ∃ p ∈ (storage.createRoom db name createdBy languages rands).2.roomParticipants,
      p.roomId = (storage.createRoom db name createdBy languages rands).1.id ∧
      p.userId = createdBy ∧
      p.language = (match languages with
        | [] => "en"
        | l :: _ => if l = "" then "en" else l) := by
  simp only [storage.createRoom, storage.isUserInRoom]
  refine ⟨?_, ?_⟩
  · simp [List.filter_append]
  · refine ⟨_, List.mem_append_right _ (List.mem_singleton_self _), rfl, rfl, rfl⟩

/-- If every one of the ten probed codes collides, the retry loop exhausts its
iterations and settles on the eleventh generated code without probing it. -/
theorem pickRoomCodeAux_all_collide (collides : String → Bool)
    (gen : Nat → String) (h : ∀ k, k < 10 → collides (gen k) = true) :
    ∀ rem att, rem + att = 10 →
      storage.pickRoomCodeAux collides gen rem att (gen att) = gen 10 := by
  intro rem
  induction rem with
  | zero =>
      intro att hatt
      have h10 : att = 10 := by omega
      subst h10
      rfl
  | succ n ih =>
      intro att hatt
      simp only [storage.pickRoomCodeAux, h att (by omega), if_true]
      exact ih (att + 1) (by omega)

/-- C9: every generated room code is six characters drawn from the alphabet
`ABCDEFGHJKLMNPQRSTUVWXYZ23456789`, which excludes the ambiguous characters
0, 1, I and O; `createRoom` probes the store for a collision up to ten times,
and when every probe collides it proceeds with the last (eleventh) generated
code rather than failing: the room row is still inserted, carrying that
code. -/
theorem roomCode_generation (rand : Nat → Nat) (db : DB) (name : String)
    (createdBy : Nat) (languages : List String) (rands : Nat → Nat → Nat)
    (hcoll : ∀ k, k < 10 →
      (db.rooms.filter (fun r =>
        r.roomCode = storage.generateRoomCode (rands k))).length > 0) :
    (storage.generateRoomCode rand).length = 6 ∧
    (∀ c ∈ (storage.generateRoomCode rand).data, c ∈ storage.roomCodeChars) ∧
    '0' ∉ storage.roomCodeChars ∧ '1' ∉ storage.roomCodeChars ∧
    'I' ∉ storage.roomCodeChars ∧ 'O' ∉ storage.roomCodeChars ∧
    (storage.createRoom db name createdBy languages rands).1.roomCode
      = storage.generateRoomCode (rands 10) ∧
    (storage.createRoom db name createdBy languages rands).1
      ∈ (storage.createRoom db name createdBy languages rands).2.rooms := by
  have hlenmk : ∀ l : List Char, (String.mk l).length = l.length := fun l => rfl
  have hmem32 : ∀ j, j < 32 → storage.roomCodeChars.getD j 'A' ∈
      storage.roomCodeChars := by decide
  have hlen32 : storage.roomCodeChars.length = 32 := by decide
  refine ⟨?_, ?_, by decide, by decide, by decide, by decide, ?_, ?_⟩
  · simp [storage.generateRoomCode, hlenmk]
  · intro c hc
    simp only [storage.generateRoomCode, List.mem_map, List.mem_range] at hc
    obtain ⟨i, -, hi⟩ := hc
    rw [← hi, hlen32]
    exact hmem32 _ (Nat.mod_lt _ (by norm_num))
  · have hpick : storage.pickRoomCode
        (fun c => decide ((db.rooms.filter (fun r => r.roomCode = c)).length > 0))
        (fun k => storage.generateRoomCode (rands k))
        = storage.generateRoomCode (rands 10) := by
      apply pickRoomCodeAux_all_collide
      · intro k hk
        exact decide_eq_true (hcoll k hk)
      · rfl
    simp only [storage.createRoom]
    exact hpick
  · simp only [storage.createRoom]
    exact List.mem_append_right _ (List.mem_singleton_self _)

/-- Witness for C9: a store whose single room carries every code that the
constant random source can produce, so all ten probes collide. -/
theorem roomCode_generation_witness :
    (storage.generateRoomCode (fun _ => 0)).length = 6 ∧
    (∀ c ∈ (storage.generateRoomCode (fun _ => 0)).data, c ∈ storage.roomCodeChars) ∧
    '0' ∉ storage.roomCodeChars ∧ '1' ∉ storage.roomCodeChars ∧
    'I' ∉ storage.roomCodeChars ∧ 'O' ∉ storage.roomCodeChars ∧
    (storage.createRoom dbColl "New" 1 ["en"] (fun _ _ => 0)).1.roomCode
      = storage.generateRoomCode ((fun _ _ => 0) 10) ∧
    (storage.createRoom dbColl "New" 1 ["en"] (fun _ _ => 0)).1
      ∈ (storage.createRoom dbColl "New" 1 ["en"] (fun _ _ => 0)).2.rooms :=
  roomCode_generation (fun _ => 0) dbColl "New" 1 ["en"] (fun _ _ => 0)
    (by decide)

/-! ## Authentication state (claim C3) -/

/-- A non-null, non-zero `currentUserId` is truthy under the handlers'
`if (!currentUserId)` guard. -/
theorem falsyUser_some_of_ne_zero {u : Nat} (h : u ≠ 0) :
    falsyUser (some u) = false := by
  cases u with
  | zero => exact absurd rfl h
  | succ n => rfl

/-- C3 (code bug): `authenticate(5)` with user 5 absent emits the error but
leaves `currentUserId = 5`, because the handler assigns the id before
validating it.  A subsequent `join_room` (and `send_message`) on the same
connection therefore passes the authentication guard and emits
"Not a member of this room" — not the "Not authenticated" that a connection
remaining Unauthenticated would produce. -/
theorem authenticate_failure_leaves_user_set :
    (socket.authenticate dbA st0 ⟨"s1", none⟩ 5).2.2
      = [.emitSelf (.error "User not found")] ∧
    (socket.authenticate dbA st0 ⟨"s1", none⟩ 5).2.1.currentUserId = some 5 ∧
    (socket.join_room dbA (socket.authenticate dbA st0 ⟨"s1", none⟩ 5).1
        (socket.authenticate dbA st0 ⟨"s1", none⟩ 5).2.1 1).2.2
      = [.emitSelf (.error "Not a member of this room")] ∧
    (socket.send_message dbA (socket.authenticate dbA st0 ⟨"s1", none⟩ 5).1
        (socket.authenticate dbA st0 ⟨"s1", none⟩ 5).2.1 1 "Hi" none
        .failure).2.2.2
      = [.emitSelf (.error "Not a member of this room")] := by decide

/-! ## The derived online-members set (claim C4) -/

/-- C4 fails as stated: user 2 authenticates on socket "s1" but never joins
room 1's live group (no live-group entry, no reverse-index entry), yet the
derived online-members set of room 1 already lists user 2, because
`getOnlineUsersInRoom` consults only the `onlineUsers` presence map. -/
theorem online_users_ignores_live_group_cex :
    socket.getOnlineUsersInRoom dbA
        (socket.authenticate dbA st0 ⟨"s1", none⟩ 2).1 1 = [2] ∧
    (socket.authenticate dbA st0 ⟨"s1", none⟩ 2).1.liveGroups = [] ∧
    (socket.authenticate dbA st0 ⟨"s1", none⟩ 2).1.userRooms = [] ∧
    (socket.authenticate dbA st0 ⟨"s1", none⟩ 2).2.2
      = [.emitSelf (.authenticated 2)] := by decide

/-- C4 (amended): a user appears in a room's derived online-members set
exactly while they are a Store participant of that room (with an existing user
row) and the `onlineUsers` presence map holds an entry for them — that is,
some connection has successfully authenticated as them; whether any of their
connections has joined the room's live group plays no part. -/
theorem online_users_characterization (db : DB) (st : ServerState)
    (roomId u : Nat) :
    u ∈ socket.getOnlineUsersInRoom db st roomId ↔
      ((∃ p ∈ db.roomParticipants, p.roomId = roomId ∧ p.userId = u) ∧
        (storage.getUserById db u).isSome = true ∧
        ∃ e ∈ st.onlineUsers, e.1 = u) := by
  simp only [socket.getOnlineUsersInRoom, storage.getRoomParticipants,
    List.mem_map, List.mem_filter, List.any_eq_true, decide_eq_true_eq]
  constructor
  · rintro ⟨p, ⟨⟨⟨hp, hroom⟩, husr⟩, e, he, heu⟩, hpu⟩
    subst hpu
    exact ⟨⟨p, hp, hroom, rfl⟩, husr, e, he, heu⟩
  · rintro ⟨⟨p, hp, hroom, hpu⟩, husr, e, he, heu⟩
    subst hpu
    exact ⟨p, ⟨⟨⟨hp, hroom⟩, husr⟩, e, he, heu⟩, rfl⟩

/-! ## Resource-not-found handling (claim C7) -/

/-- A store holding a participant row for a room that has no `rooms` row
(membership rows survive independently of the room row here). -/
def dbGhost : DB :=
  { users := [{ id := 1, displayName := "Alice", profilePhoto := none }],
    rooms := [],
    roomParticipants := [{ id := 1, roomId := 7, userId := 1, language := "en" }],
    messages := [], nextRoomId := 1, nextParticipantId := 2,
    nextMessageId := 1 }

/-- C7 fails as stated: `send_message` to room 7, whose participant row exists
but whose `rooms` row does not, returns with no emission at all — in
particular no scoped `error` event — instead of surfacing the missing room as
an error. -/
theorem send_message_room_missing_cex :
    (socket.send_message dbGhost st0 ⟨"s1", some 1⟩ 7 "Hello" none
        .failure).2.2.2 = [] ∧
    storage.getRoomById dbGhost 7 = none ∧
    storage.isUserInRoom dbGhost 7 1 = true := by decide

/-- C7 (amended): a missing user in `authenticate` is surfaced as a scoped
`error` event and the connection survives; but `send_message` for a roomId the
Store cannot resolve returns silently — no emission of any kind, no store
write — rather than emitting an error; the connection again survives (the
handler returns normally). -/
theorem resource_not_found_behaviour (db : DB) (st : ServerState)
    (connA conn : ConnState) (userId roomId u : Nat) (content : String)
    (mt : Option String) (outcome : TranslatorOutcome)
    (huser : storage.getUserById db userId = none)
    (hconn : conn.currentUserId = some u) (hu0 : u ≠ 0)
    (hmem : storage.isUserInRoom db roomId u = true)
    (hroom : storage.getRoomById db roomId = none) :
    (socket.authenticate db st connA userId).2.2
      = [.emitSelf (.error "User not found")] ∧
    (socket.send_message db st conn roomId content mt outcome).2.2.2 = [] ∧
    (socket.send_message db st conn roomId content mt outcome).1 = db ∧
    (socket.send_message db st conn roomId content mt outcome).2.1 = st := by
  have hfal : falsyUser conn.currentUserId = false := by
    rw [hconn]; exact falsyUser_some_of_ne_zero hu0
  have hgetD : conn.currentUserId.getD 0 = u := by rw [hconn]; rfl
  refine ⟨?_, ?_⟩
  · simp only [socket.authenticate, huser]
  · simp only [socket.send_message, hfal, hgetD, hmem, hroom]
    simp

/-- Witness for C7 (amended) at the concrete ghost-membership store. -/
theorem resource_not_found_behaviour_witness :
    (socket.authenticate dbGhost st0 ⟨"s0", none⟩ 9).2.2
      = [.emitSelf (.error "User not found")] ∧
    (socket.send_message dbGhost st0 ⟨"s1", some 1⟩ 7 "Hi" none
        .failure).2.2.2 = [] ∧
    (socket.send_message dbGhost st0 ⟨"s1", some 1⟩ 7 "Hi" none
        .failure).1 = dbGhost ∧
    (socket.send_message dbGhost st0 ⟨"s1", some 1⟩ 7 "Hi" none
        .failure).2.1 = st0 :=
  resource_not_found_behaviour dbGhost st0 ⟨"s0", none⟩ ⟨"s1", some 1⟩ 9 7 1
    "Hi" none .failure (by decide) rfl (by decide) (by decide) (by decide)

/-! ## The join_room handler (claim C6) -/

/-- After `addToSet m k v` with an entry for `k` present, the first `k`-entry
of the mapped list holds `v`. -/
theorem find?_map_addToSet_aux {α β : Type} [DecidableEq α] [DecidableEq β]
    (k : α) (v : β) :
    ∀ m : List (α × List β), m.any (fun e => e.1 = k) = true →
      ∃ s, (m.map (fun e =>
          if e.1 = k then (e.1, if v ∈ e.2 then e.2 else e.2 ++ [v])
          else e)).find? (fun e => e.1 = k) = some (k, s) ∧ v ∈ s := by
  intro m
  induction m with
  | nil => intro h; simp at h
  | cons e t ih =>
      intro h
      by_cases hek : e.1 = k
      · refine ⟨if v ∈ e.2 then e.2 else e.2 ++ [v], ?_, ?_⟩
        · rw [List.map_cons, if_pos hek, List.find?_cons_of_pos]
          · rw [hek]
          · simpa using hek
        · by_cases hv : v ∈ e.2 <;> simp [hv]
      · have ht : t.any (fun e => e.1 = k) = true := by
          simp only [List.any_cons, Bool.or_eq_true, decide_eq_true_eq] at h
          rcases h with h | h
          · exact absurd h hek
          · exact h
        obtain ⟨s, hfind, hv⟩ := ih ht
        refine ⟨s, ?_, hv⟩
        rw [List.map_cons, if_neg hek, List.find?_cons_of_neg]
        · exact hfind
        · simpa using hek

/-- After `addToSet m k v`, the set stored at `k` contains `v`. -/
theorem mem_lookupList_addToSet {α β : Type} [DecidableEq α] [DecidableEq β]
    (m : List (α × List β)) (k : α) (v : β) :
    v ∈ lookupList (addToSet m k v) k := by
  rw [addToSet]
  by_cases h : m.any (fun e => e.1 = k) = true
  · rw [if_pos h]
    obtain ⟨s, hfind, hv⟩ := find?_map_addToSet_aux k v m h
    unfold lookupList
    rw [hfind]
    exact hv
  · rw [if_neg h]
    unfold lookupList
    rw [List.find?_append]
    have hnone : m.find? (fun e => e.1 = k) = none := by
      rw [List.find?_eq_none]
      intro x hx hxk
      exact h (List.any_eq_true.mpr ⟨x, hx, hxk⟩)
    rw [hnone]
    simp [List.find?]

/-- C6: `join_room` on an unauthenticated connection emits only the
"Not authenticated" error and changes nothing; an authenticated caller who is
not a Store member of the room gets only the scoped "Not a member of this
room" error and nothing changes; on success the connection is added to the
room's live group and the reverse index, `user_joined` goes to the other
members of the live group only (the joiner's socket excluded), and then
`online_users` with the full recomputed online set goes to the whole group,
the joiner included. -/
theorem join_room_behaviour (db : DB) (st : ServerState)
    (conn0 conn : ConnState) (roomIdN roomIdM u : Nat)
    (h0 : conn0.currentUserId = none)
    (hu : conn.currentUserId = some u) (hu0 : u ≠ 0)
    (hN : storage.isUserInRoom db roomIdN u = false)
    (hM : storage.isUserInRoom db roomIdM u = true) :
    socket.join_room db st conn0 roomIdN
      = (st, conn0, [.emitSelf (.error "Not authenticated")]) ∧
    socket.join_room db st conn roomIdN
      = (st, conn, [.emitSelf (.error "Not a member of this room")]) ∧
    conn.socketId ∈
      lookupList (socket.join_room db st conn roomIdM).1.liveGroups
        (roomKey roomIdM) ∧
    roomIdM ∈
      lookupList (socket.join_room db st conn roomIdM).1.userRooms
        conn.socketId ∧
    (socket.join_room db st conn roomIdM).2.1 = conn ∧
    (socket.join_room db st conn roomIdM).2.2 =
      [.emitRoomOthers (roomKey roomIdM)
         (.user_joined u ((storage.getUserById db u).map User.displayName)
           roomIdM),
       .emitRoomAll (roomKey roomIdM)
         (.online_users roomIdM (socket.getOnlineUsersInRoom db
           (socket.join_room db st conn roomIdM).1 roomIdM))] := by
  have hfal : falsyUser conn.currentUserId = false := by
    rw [hu]; exact falsyUser_some_of_ne_zero hu0
  have hgetD : conn.currentUserId.getD 0 = u := by rw [hu]; rfl
  have hM' : socket.join_room db st conn roomIdM =
      ({ st with
          liveGroups := addToSet st.liveGroups (roomKey roomIdM) conn.socketId,
          userRooms := addToSet st.userRooms conn.socketId roomIdM },
       conn,
       [.emitRoomOthers (roomKey roomIdM)
          (.user_joined u ((storage.getUserById db u).map User.displayName)
            roomIdM),
        .emitRoomAll (roomKey roomIdM)
          (.online_users roomIdM (socket.getOnlineUsersInRoom db
            { st with
                liveGroups :=
                  addToSet st.liveGroups (roomKey roomIdM) conn.socketId,
                userRooms := addToSet st.userRooms conn.socketId roomIdM }
            roomIdM))]) := by
    simp only [socket.join_room, hfal, hgetD, hM]
    simp
  refine ⟨?_, ?_, ?_, ?_, ?_, ?_⟩
  · simp only [socket.join_room, h0]
    rfl
  · simp only [socket.join_room, hfal, hgetD, hN]
    simp
  · rw [hM']
    exact mem_lookupList_addToSet _ _ _
  · rw [hM']
    exact mem_lookupList_addToSet _ _ _
  · rw [hM']
  · rw [hM']

/-- Witness for C6: an unauthenticated socket and an authenticated user 1,
with room 2 absent from user 1's memberships and room 1 present. -/
theorem join_room_behaviour_witness :
    socket.join_room dbA st0 ⟨"s0", none⟩ 2
      = (st0, ⟨"s0", none⟩, [.emitSelf (.error "Not authenticated")]) ∧
    socket.join_room dbA st0 ⟨"s1", some 1⟩ 2
      = (st0, ⟨"s1", some 1⟩,
         [.emitSelf (.error "Not a member of this room")]) ∧
    "s1" ∈
      lookupList (socket.join_room dbA st0 ⟨"s1", some 1⟩ 1).1.liveGroups
        (roomKey 1) ∧
    1 ∈
      lookupList (socket.join_room dbA st0 ⟨"s1", some 1⟩ 1).1.userRooms
        "s1" ∧
    (socket.join_room dbA st0 ⟨"s1", some 1⟩ 1).2.1 = ⟨"s1", some 1⟩ ∧
    (socket.join_room dbA st0 ⟨"s1", some 1⟩ 1).2.2 =
      [.emitRoomOthers (roomKey 1)
         (.user_joined 1 ((storage.getUserById dbA 1).map User.displayName) 1),
       .emitRoomAll (roomKey 1)
         (.online_users 1 (socket.getOnlineUsersInRoom dbA
           (socket.join_room dbA st0 ⟨"s1", some 1⟩ 1).1 1))] :=
  join_room_behaviour dbA st0 ⟨"s0", none⟩ ⟨"s1", some 1⟩ 2 1 1 rfl rfl
    (by decide) (by decide) (by decide)

/-! ## Skipping translation (claim C5) -/

/-- A store whose single room's participants all share language "en". -/
def dbB : DB :=
  { users := [{ id := 1, displayName := "Alice", profilePhoto := none },
              { id := 2, displayName := "Bob", profilePhoto := none }],
    rooms := [{ id := 1, roomCode := "BCDFGH", name := "Mono", createdBy := 1,
                languages := ["en"], isActive := true }],
    roomParticipants :=
      [{ id := 1, roomId := 1, userId := 1, language := "en" },
       { id := 2, roomId := 1, userId := 2, language := "en" }],
    messages := [], nextRoomId := 2, nextParticipantId := 3,
    nextMessageId := 1 }

/-- C5: when no participant language differs from the sender's per-room
language, or when the content trims to the empty string, `send_message` never
invokes the translator, persists exactly one message with `detectedLanguage`
the sender's per-room language and an empty translation map, and broadcasts a
translation result with confidence exactly 1.0. -/
theorem send_message_skips_translation (db : DB) (st : ServerState)
    (conn : ConnState) (roomId u : Nat) (content : String) (mt : Option String)
    (outcome : TranslatorOutcome) (room : Room) (p : RoomParticipant)
    (hu : conn.currentUserId = some u) (hu0 : u ≠ 0)
    (hmem : storage.isUserInRoom db roomId u = true)
    (hroom : storage.getRoomById db roomId = some room)
    (hp : (storage.getRoomParticipants db roomId).find? (fun q => q.userId = u)
        = some p)
    (hlang : p.language ≠ "")
    (hskip : (∀ q ∈ storage.getRoomParticipants db roomId,
        q.language = p.language) ∨ jsTrim content = "") :
    (socket.send_message db st conn roomId content mt outcome).2.2.2.filter
        isTranslatorCall = [] ∧
    (socket.send_message db st conn roomId content mt outcome).1.messages
      = db.messages ++
        [{ id := db.nextMessageId, roomId := roomId, senderId := u,
           content := content,
           messageType := (match mt with
             | none => "text"
             | some s => if s = "" then "text" else s),
           originalLanguage := p.language, translatedContent := [] }] ∧
    broadcastTranslationResults
        (socket.send_message db st conn roomId content mt outcome).2.2.2
      = [{ detectedLanguage := p.language, translations := [],
           confidence := 1 }] := by
  have hfal : falsyUser conn.currentUserId = false := by
    rw [hu]; exact falsyUser_some_of_ne_zero hu0
  have hgetD : conn.currentUserId.getD 0 = u := by rw [hu]; rfl
  have hsl : senderLangOf (storage.getRoomParticipants db roomId) u
      = p.language := by
    unfold senderLangOf
    rw [hp]
    simp [hlang]
  have hdo : ((targetLanguagesOf (storage.getRoomParticipants db roomId)
        p.language).length > 0 && (jsTrim content).length > 0) = false := by
    rcases hskip with hall | htrim
    · have hnil : targetLanguagesOf (storage.getRoomParticipants db roomId)
          p.language = [] := by
        unfold targetLanguagesOf
        have : ((storage.getRoomParticipants db roomId).map
            (fun q => q.language)).filter (fun lang => lang ≠ p.language)
              = [] := by
          rw [List.filter_eq_nil_iff]
          intro a ha
          obtain ⟨q, hq, rfl⟩ := List.mem_map.mp ha
          simp [hall q hq]
        rw [this]
        rfl
      rw [hnil]
      rfl
    · rw [htrim]
      simp
  refine ⟨?_, ?_, ?_⟩ <;>
    · simp only [socket.send_message, hfal, hgetD, hmem, hroom, hsl, hdo]
      simp [isTranslatorCall, broadcastTranslationResults,
        storage.createMessage]

/-- Witness for C5: user 1 sends "Hello" in a room whose two participants both
use "en". -/
theorem send_message_skips_translation_witness :
    (socket.send_message dbB st0 ⟨"s1", some 1⟩ 1 "Hello" none
        .failure).2.2.2.filter isTranslatorCall = [] ∧
    (socket.send_message dbB st0 ⟨"s1", some 1⟩ 1 "Hello" none
        .failure).1.messages
      = dbB.messages ++
        [{ id := 1, roomId := 1, senderId := 1, content := "Hello",
           messageType := "text", originalLanguage := "en",
           translatedContent := [] }] ∧
    broadcastTranslationResults
        (socket.send_message dbB st0 ⟨"s1", some 1⟩ 1 "Hello" none
          .failure).2.2.2
      = [{ detectedLanguage := "en", translations := [], confidence := 1 }] :=
  send_message_skips_translation dbB st0 ⟨"s1", some 1⟩ 1 1 "Hello" none
    .failure
    { id := 1, roomCode := "BCDFGH", name := "Mono", createdBy := 1,
      languages := ["en"], isActive := true }
    { id := 1, roomId := 1, userId := 1, language := "en" }
    rfl (by decide) (by decide) (by decide) (by decide) (by decide)
    (Or.inl (by decide))

/-! ## Translator failure (claim C2) -/

/-- C2: when the external translator call fails, `send_message` still
succeeds: the trace is exactly the translator call, the store write and the
`new_message` broadcast — no error event of any kind — the persisted row's
translation map sends every requested target language to the original text,
and the broadcast result carries confidence exactly 0. -/
theorem send_message_translator_failure (db : DB) (st : ServerState)
    (conn : ConnState) (roomId u : Nat) (content : String) (mt : Option String)
    (room : Room)
    (hu : conn.currentUserId = some u) (hu0 : u ≠ 0)
    (hmem : storage.isUserInRoom db roomId u = true)
    (hroom : storage.getRoomById db roomId = some room)
    (htl : targetLanguagesOf (storage.getRoomParticipants db roomId)
        (senderLangOf (storage.getRoomParticipants db roomId) u) ≠ [])
    (htrim : jsTrim content ≠ "") :
    (socket.send_message db st conn roomId content mt .failure).2.2.2
      = [.callTranslator content
           (targetLanguagesOf (storage.getRoomParticipants db roomId)
             (senderLangOf (storage.getRoomParticipants db roomId) u)),
         .storeCreateMessage
           { id := db.nextMessageId, roomId := roomId, senderId := u,
             content := content,
             messageType := (match mt with
               | none => "text"
               | some s => if s = "" then "text" else s),
             originalLanguage := "unknown",
             translatedContent :=
               (targetLanguagesOf (storage.getRoomParticipants db roomId)
                 (senderLangOf (storage.getRoomParticipants db roomId)
                   u)).map (fun lang => (lang, content)) },
         .emitRoomAll (roomKey roomId)
           (.new_message
             { id := db.nextMessageId, roomId := roomId, senderId := u,
               content := content,
               messageType := (match mt with
                 | none => "text"
                 | some s => if s = "" then "text" else s),
               originalLanguage := "unknown",
               translatedContent :=
                 (targetLanguagesOf (storage.getRoomParticipants db roomId)
                   (senderLangOf (storage.getRoomParticipants db roomId)
                     u)).map (fun lang => (lang, content)) }
             (match storage.getUserById db u with
               | some s =>
                   { id := s.id, displayName := s.displayName,
                     profilePhoto := s.profilePhoto }
               | none => { id := u, displayName := "Unknown",
                           profilePhoto := none })
             { detectedLanguage := "unknown",
               translations :=
                 (targetLanguagesOf (storage.getRoomParticipants db roomId)
                   (senderLangOf (storage.getRoomParticipants db roomId)
                     u)).map (fun lang => (lang, content)),
               confidence := 0 })] ∧
    (socket.send_message db st conn roomId content mt .failure).1.messages
      = db.messages ++
        [{ id := db.nextMessageId, roomId := roomId, senderId := u,
           content := content,
           messageType := (match mt with
             | none => "text"
             | some s => if s = "" then "text" else s),
           originalLanguage := "unknown",
           translatedContent :=
             (targetLanguagesOf (storage.getRoomParticipants db roomId)
               (senderLangOf (storage.getRoomParticipants db roomId)
                 u)).map (fun lang => (lang, content)) }] ∧
    (socket.send_message db st conn roomId content mt .failure).2.2.2.filter
        isErrorEffect = [] := by
  have hfal : falsyUser conn.currentUserId = false := by
    rw [hu]; exact falsyUser_some_of_ne_zero hu0
  have hgetD : conn.currentUserId.getD 0 = u := by rw [hu]; rfl
  have hlen : (jsTrim content).length ≠ 0 := by
    intro h
    exact htrim (String.ext (List.length_eq_zero.mp h))
  have hdo : ((targetLanguagesOf (storage.getRoomParticipants db roomId)
        (senderLangOf (storage.getRoomParticipants db roomId) u)).length > 0
      && (jsTrim content).length > 0) = true := by
    have h1 : (targetLanguagesOf (storage.getRoomParticipants db roomId)
        (senderLangOf (storage.getRoomParticipants db roomId) u)).length ≠ 0 :=
      fun h => htl (List.length_eq_zero.mp h)
    simp [Nat.pos_of_ne_zero, h1, hlen]
  have htm : translateMessage content
      (targetLanguagesOf (storage.getRoomParticipants db roomId)
        (senderLangOf (storage.getRoomParticipants db roomId) u)) .failure
      = { detectedLanguage := "unknown",
          translations :=
            (targetLanguagesOf (storage.getRoomParticipants db roomId)
              (senderLangOf (storage.getRoomParticipants db roomId) u)).map
              (fun lang => (lang, content)),
          confidence := 0 } := by
    unfold translateMessage
    rw [if_neg (fun h => htl (List.length_eq_zero.mp h))]
  refine ⟨?_, ?_, ?_⟩ <;>
    · simp only [socket.send_message, hfal, hgetD, hmem, hroom, hdo, htm]
      simp [storage.createMessage, storage.getUserById, isErrorEffect]

/-- Witness for C2: user 1 ("en") sends "Hello" in the two-language room while
the translator fails; the Spanish entry echoes the original text with
confidence 0. -/
theorem send_message_translator_failure_witness :
    (socket.send_message dbA st0 ⟨"s1", some 1⟩ 1 "Hello" none
        .failure).2.2.2
      = [.callTranslator "Hello" ["es"],
         .storeCreateMessage
           { id := 1, roomId := 1, senderId := 1, content := "Hello",
             messageType := "text", originalLanguage := "unknown",
             translatedContent := [("es", "Hello")] },
         .emitRoomAll (roomKey 1)
           (.new_message
             { id := 1, roomId := 1, senderId := 1, content := "Hello",
               messageType := "text", originalLanguage := "unknown",
               translatedContent := [("es", "Hello")] }
             { id := 1, displayName := "Alice", profilePhoto := none }
             { detectedLanguage := "unknown",
               translations := [("es", "Hello")], confidence := 0 })] ∧
    (socket.send_message dbA st0 ⟨"s1", some 1⟩ 1 "Hello" none
        .failure).1.messages
      = dbA.messages ++
        [{ id := 1, roomId := 1, senderId := 1, content := "Hello",
           messageType := "text", originalLanguage := "unknown",
           translatedContent := [("es", "Hello")] }] ∧
    (socket.send_message dbA st0 ⟨"s1", some 1⟩ 1 "Hello" none
        .failure).2.2.2.filter isErrorEffect = [] :=
  send_message_translator_failure dbA st0 ⟨"s1", some 1⟩ 1 1 "Hello" none
    { id := 1, roomCode := "ABCDEF", name := "Main", createdBy := 1,
      languages := ["en", "es"], isActive := true }
    rfl (by decide) (by decide) (by decide) (by decide) (by decide)

/-! ## Persistence happens-before broadcast (claim C1) -/

/-- C1: in every possible `send_message` execution, whenever the trace holds a
`new_message` broadcast at position `i`, the Store write of that same message
row sits at the strictly earlier position `i - 1`, and the row is present in
the resulting store: no broadcast is ever observed for a message that was not
already persisted. -/
theorem send_message_persist_before_broadcast (db : DB) (st : ServerState)
    (conn : ConnState) (roomId : Nat) (content : String) (mt : Option String)
    (outcome : TranslatorOutcome) (i : Nat) (key : String) (m : Message)
    (s : SenderSummary) (tr : TranslationResult)
    (hi : (socket.send_message db st conn roomId content mt
        outcome).2.2.2.get? i = some (.emitRoomAll key (.new_message m s tr))) :
    1 ≤ i ∧
    (socket.send_message db st conn roomId content mt outcome).2.2.2.get?
        (i - 1) = some (.storeCreateMessage m) ∧
    m ∈ (socket.send_message db st conn roomId content mt
        outcome).1.messages := by
  by_cases h1 : falsyUser conn.currentUserId = true
  · exfalso
    simp only [socket.send_message, h1, if_true] at hi
    rcases i with _ | i <;> simp at hi
  · have hb1 : falsyUser conn.currentUserId = false := Bool.eq_false_iff.mpr h1
    by_cases h2 : storage.isUserInRoom db roomId
        (conn.currentUserId.getD 0) = true
    · cases hr : storage.getRoomById db roomId with
      | none =>
          exfalso
          simp [socket.send_message, hb1, h2, hr] at hi
      | some room =>
          by_cases hdo : ((targetLanguagesOf
              (storage.getRoomParticipants db roomId)
              (senderLangOf (storage.getRoomParticipants db roomId)
                (conn.currentUserId.getD 0))).length > 0
            && (jsTrim content).length > 0) = true
          · simp only [socket.send_message, hb1, h2, hr, hdo, if_true,
              Bool.false_eq_true, if_false] at hi ⊢
            rcases i with _ | _ | _ | i <;> simp at hi ⊢
            obtain ⟨-, hm, -, -⟩ := hi
            exact ⟨hm, by rw [← hm]; simp [storage.createMessage]⟩
          · have hdo' : ((targetLanguagesOf
                (storage.getRoomParticipants db roomId)
                (senderLangOf (storage.getRoomParticipants db roomId)
                  (conn.currentUserId.getD 0))).length > 0
              && (jsTrim content).length > 0) = false :=
              Bool.eq_false_iff.mpr hdo
            simp only [socket.send_message, hb1, h2, hr, hdo', if_true,
              Bool.false_eq_true, if_false] at hi ⊢
            rcases i with _ | _ | i <;> simp at hi ⊢
            obtain ⟨-, hm, -, -⟩ := hi
            exact ⟨hm, by rw [← hm]; simp [storage.createMessage]⟩
    · exfalso
      simp [socket.send_message, hb1, h2] at hi
      rcases i with _ | i <;> simp at hi

/-- Witness for C1: in the concrete failed-translation send, the broadcast
sits at trace position 2 and the Store write of the same row at position 1. -/
theorem send_message_persist_before_broadcast_witness :
    1 ≤ 2 ∧
    (socket.send_message dbA st0 ⟨"s1", some 1⟩ 1 "Hello" none
        .failure).2.2.2.get? (2 - 1)
      = some (.storeCreateMessage
          { id := 1, roomId := 1, senderId := 1, content := "Hello",
            messageType := "text", originalLanguage := "unknown",
            translatedContent := [("es", "Hello")] }) ∧
    ({ id := 1, roomId := 1, senderId := 1, content := "Hello",
       messageType := "text", originalLanguage := "unknown",
       translatedContent := [("es", "Hello")] } : Message) ∈
      (socket.send_message dbA st0 ⟨"s1", some 1⟩ 1 "Hello" none
        .failure).1.messages :=
  send_message_persist_before_broadcast dbA st0 ⟨"s1", some 1⟩ 1 "Hello" none
    .failure 2 "room:1"
    { id := 1, roomId := 1, senderId := 1, content := "Hello",
      messageType := "text", originalLanguage := "unknown",
      translatedContent := [("es", "Hello")] }
    { id := 1, displayName := "Alice", profilePhoto := none }
    { detectedLanguage := "unknown", translations := [("es", "Hello")],
      confidence := 0 }
    (by decide)
